import Mathlib

/-!
Shallow embedding of the unstructured-ingest connector pipeline
(src/unstructured_ingest/v2/processes/connectors/) together with proofs about
the claims of the specification.

Conventions of the embedding:
* Python dictionaries loaded from JSON are association lists of string keys.
  Key lookup finds the first matching entry; key assignment replaces the first
  matching entry in place and otherwise appends, matching the behaviour of
  insertion-ordered Python dicts (which hold each key at most once).
* Side effects are made explicit: file writes become a returned trace of
  (path, contents) pairs, raised exceptions become an Except error value, the
  wall clock and the uuid4 generator become explicit arguments, and remote
  calls become arguments holding the remote response.
* Code of the repository that is imported by the connector files but is not
  itself among the source files (the FileData model, batch_generator,
  flatten_dict, SourceConnectionError.wrap, get_download_path,
  generate_download_response) is modelled from the specification; each such
  definition carries a doc comment starting with "Modelled from the spec:".
-/

/-- JSON-like values, the contents of element records handled by stagers. -/
inductive JValue where
  | null : JValue
  | bool (b : Bool) : JValue
  | num (n : Int) : JValue
  | str (s : String) : JValue
  | arr (items : List JValue) : JValue
  | obj (entries : List (String × JValue)) : JValue
deriving Repr

/-- A JSON object: an insertion-ordered association list of string keys. -/
abbrev JObj := List (String × JValue)

/-- Dictionary lookup: first entry with the given key (Python d.get(k)). -/
def jGet : JObj → String → Option JValue
  | [], _ => none
  | (k1, v) :: rest, k => if k1 = k then some v else jGet rest k

/-- Dictionary assignment (Python d[k] = v): replace the first entry with key
k in place, append a new entry at the end otherwise. -/
def jSet : JObj → String → JValue → JObj
  | [], k, v => [(k, v)]
  | (k1, v1) :: rest, k, v =>
    if k1 = k then (k, v) :: rest else (k1, v1) :: jSet rest k v

/-- Removal of every entry with the given key (Python d.pop(k, None) on a dict
holding the key at most once). -/
def eraseKey (k : String) (d : JObj) : JObj :=
  d.filter (fun e => e.1 ≠ k)

/-- Python truthiness of a JSON value, as used by the walrus-guarded
transforms of conform_dict. -/
def truthy : JValue → Bool
  | .null => false
  | .bool b => b
  | .num n => n != 0
  | .str s => s ≠ ""
  | .arr items => !items.isEmpty
  | .obj entries => !entries.isEmpty

mutual

/-- Model of Python json.dumps on a JSON value (string escaping elided: the
claims under proof never inspect the serialized text). -/
def jsonDumps : JValue → String
  | .null => "null"
  | .bool true => "true"
  | .bool false => "false"
  | .num n => toString n
  | .str s => "\"" ++ s ++ "\""
  | .arr items => "[" ++ jsonDumpsList items ++ "]"
  | .obj entries => "\x7b" ++ jsonDumpsObj entries ++ "\x7d"

/-- Serialization of the items of a JSON array. -/
def jsonDumpsList : List JValue → String
  | [] => ""
  | [v] => jsonDumps v
  | v :: rest => jsonDumps v ++ ", " ++ jsonDumpsList rest

/-- Serialization of the entries of a JSON object. -/
def jsonDumpsObj : List (String × JValue) → String
  | [] => ""
  | [(k, v)] => "\"" ++ k ++ "\": " ++ jsonDumps v
  | (k, v) :: rest => "\"" ++ k ++ "\": " ++ jsonDumps v ++ ", " ++ jsonDumpsObj rest

end

/-- Model of Python str() on a JSON value. -/
def pyStr : JValue → String
  | .null => "None"
  | .bool true => "True"
  | .bool false => "False"
  | .num n => toString n
  | .str s => s
  | v => jsonDumps v

/-- Nested read data.get(k1, ...).get(k2): present only when the value at k1
is an object holding k2 (a non-object value at k1 is a type error in the
source and never arises on well-formed element records). -/
def dGet2 (d : JObj) (k1 k2 : String) : Option JValue :=
  match jGet d k1 with
  | some (.obj o) => jGet o k2
  | _ => none

/-- Nested read data.get(k1, {}).get(k2, {}).get(k3). -/
def dGet3 (d : JObj) (k1 k2 k3 : String) : Option JValue :=
  match jGet d k1 with
  | some (.obj o) => dGet2 o k2 k3
  | _ => none

/-- Nested write data[k1][k2] = v, defined on the states where the guarded
transforms of conform_dict perform it (k1 present and an object). -/
def dSet2 (d : JObj) (k1 k2 : String) (v : JValue) : JObj :=
  match jGet d k1 with
  | some (.obj o) => jSet d k1 (.obj (jSet o k2 v))
  | _ => d

/-- Nested write data[k1][k2][k3] = v. -/
def dSet3 (d : JObj) (k1 k2 k3 : String) (v : JValue) : JObj :=
  match jGet d k1 with
  | some (.obj o) => jSet d k1 (.obj (dSet2 o k2 k3 v))
  | _ => d

/-- One guarded transform of conform_dict at depth two, the shape of the
source lines "if x := data.get(k1, {}).get(k2): data[k1][k2] = f(x)". -/
def conformAt2 (k1 k2 : String) (f : JValue → JValue) (d : JObj) : JObj :=
  match dGet2 d k1 k2 with
  | some v => if truthy v then dSet2 d k1 k2 (f v) else d
  | none => d

/-- One guarded transform of conform_dict at depth three, the shape of the
source lines "if x := data.get(k1, {}).get(k2, {}).get(k3):
data[k1][k2][k3] = f(x)". -/
def conformAt3 (k1 k2 k3 : String) (f : JValue → JValue) (d : JObj) : JObj :=
  match dGet3 d k1 k2 k3 with
  | some v => if truthy v then dSet3 d k1 k2 k3 (f v) else d
  | none => d

theorem jGet_jSet_ne {d : JObj} {k k1 : String} (v : JValue) (h : k ≠ k1) :
    jGet (jSet d k v) k1 = jGet d k1 := by
  induction d with
  | nil => simp [jSet, jGet, h]
  | cons e rest ih =>
    by_cases he : e.1 = k
    · simp [jSet, jGet, he, h]
    · simp only [jSet, jGet, he, if_false]
      by_cases he1 : e.1 = k1 <;> simp [jGet, he1, ih]

theorem jSet_comm_of_present {d : JObj} {k k1 : String} {w0 : JValue}
    (v w : JValue) (hp : jGet d k1 = some w0) (h : k ≠ k1) :
    jSet (jSet d k v) k1 w = jSet (jSet d k1 w) k v := by
  induction d with
  | nil => simp [jGet] at hp
  | cons e rest ih =>
    obtain ⟨k0, v0⟩ := e
    by_cases he : k0 = k
    · have hk01 : k0 ≠ k1 := he ▸ h
      simp [jSet, he, h, hk01]
    · by_cases he1 : k0 = k1
      · simp [jSet, he, he1, Ne.symm h]
      · simp only [jGet, he1, if_false] at hp
        simp [jSet, he, he1, ih hp]

theorem eraseKey_jSet_self (d : JObj) (k : String) (v : JValue) :
    eraseKey k (jSet d k v) = eraseKey k d := by
  induction d with
  | nil => simp [jSet, eraseKey]
  | cons e rest ih =>
    by_cases he : e.1 = k
    · simp [jSet, eraseKey, he]
    · simp only [eraseKey, ne_eq, decide_not] at ih
      simp [jSet, eraseKey, he, ih]

theorem dGet2_jSet_ne {d : JObj} {k k1 : String} (k2 : String) (v : JValue)
    (h : k ≠ k1) : dGet2 (jSet d k v) k1 k2 = dGet2 d k1 k2 := by
  unfold dGet2
  rw [jGet_jSet_ne v h]

theorem dGet3_jSet_ne {d : JObj} {k k1 : String} (k2 k3 : String) (v : JValue)
    (h : k ≠ k1) : dGet3 (jSet d k v) k1 k2 k3 = dGet3 d k1 k2 k3 := by
  unfold dGet3
  rw [jGet_jSet_ne v h]

theorem dSet2_jSet_ne {d : JObj} {k k1 : String} (k2 : String) (v w : JValue)
    (h : k ≠ k1) : dSet2 (jSet d k v) k1 k2 w = jSet (dSet2 d k1 k2 w) k v := by
  unfold dSet2
  rw [jGet_jSet_ne v h]
  cases hg : jGet d k1 with
  | none => rfl
  | some u =>
    cases u with
    | obj o => exact jSet_comm_of_present v (.obj (jSet o k2 w)) hg h
    | null => rfl
    | bool b => rfl
    | num n => rfl
    | str s => rfl
    | arr items => rfl

theorem dSet3_jSet_ne {d : JObj} {k k1 : String} (k2 k3 : String) (v w : JValue)
    (h : k ≠ k1) : dSet3 (jSet d k v) k1 k2 k3 w = jSet (dSet3 d k1 k2 k3 w) k v := by
  unfold dSet3
  rw [jGet_jSet_ne v h]
  cases hg : jGet d k1 with
  | none => rfl
  | some u =>
    cases u with
    | obj o => exact jSet_comm_of_present v (.obj (dSet2 o k2 k3 w)) hg h
    | null => rfl
    | bool b => rfl
    | num n => rfl
    | str s => rfl
    | arr items => rfl

theorem conformAt2_jSet {k k1 : String} (k2 : String) (f : JValue → JValue)
    (d : JObj) (v : JValue) (h : k ≠ k1) :
    conformAt2 k1 k2 f (jSet d k v) = jSet (conformAt2 k1 k2 f d) k v := by
  unfold conformAt2
  rw [dGet2_jSet_ne k2 v h]
  cases dGet2 d k1 k2 with
  | none => rfl
  | some u =>
    by_cases ht : truthy u
    · simp only [ht, if_true]
      exact dSet2_jSet_ne k2 v (f u) h
    · simp [ht]

theorem conformAt3_jSet {k k1 : String} (k2 k3 : String) (f : JValue → JValue)
    (d : JObj) (v : JValue) (h : k ≠ k1) :
    conformAt3 k1 k2 k3 f (jSet d k v) = jSet (conformAt3 k1 k2 k3 f d) k v := by
  unfold conformAt3
  rw [dGet3_jSet_ne k2 k3 v h]
  cases dGet3 d k1 k2 k3 with
  | none => rfl
  | some u =>
    by_cases ht : truthy u
    · simp only [ht, if_true]
      exact dSet3_jSet_ne k2 k3 v (f u) h
    · simp [ht]
/-! Batching. -/

/-- Fuel-driven kernel of batch_generator; the fuel bounds the number of
steps and is instantiated with the length of the list, so that evaluation
reduces in the kernel. -/
def batchGo (fuel : Nat) (l : List α) (n : Nat) : List (List α) :=
  match fuel, l with
  | 0, _ => []
  | _ + 1, [] => []
  | f + 1, a :: rest =>
    if n = 0 then [] else (a :: rest).take n :: batchGo f ((a :: rest).drop n) n

/-- Modelled from the spec: batch_generator (unstructured_ingest.utils.data_prep,
imported by the uploaders but not among the source files) partitions a list
into consecutive batches of the configured size, the final batch holding the
remainder: the spec's run() "partitions its records into batches of a
configured size, and writes each batch to the destination". -/
def batch_generator (l : List α) (n : Nat) : List (List α) :=
  batchGo l.length l n

theorem batchGo_fuel_irrelevant (f1 : Nat) :
    ∀ (f2 : Nat) (l : List α), l.length ≤ f1 → l.length ≤ f2 →
      ∀ n, batchGo f1 l n = batchGo f2 l n := by
  induction f1 with
  | zero =>
    intro f2 l h1 h2 n
    have hl : l = [] := List.eq_nil_of_length_eq_zero (Nat.le_zero.mp h1)
    subst hl
    cases f2 with
    | zero => rfl
    | succ f => simp [batchGo]
  | succ f ih =>
    intro f2 l h1 h2 n
    cases f2 with
    | zero =>
      have hl : l = [] := List.eq_nil_of_length_eq_zero (Nat.le_zero.mp h2)
      subst hl
      simp [batchGo]
    | succ f2 =>
      cases l with
      | nil => simp [batchGo]
      | cons a rest =>
        by_cases hn : n = 0
        · simp [batchGo, hn]
        · simp only [List.length_cons] at h1 h2
          have hd1 : ((a :: rest).drop n).length ≤ f := by
            simp only [List.length_drop, List.length_cons]
            omega
          have hd2 : ((a :: rest).drop n).length ≤ f2 := by
            simp only [List.length_drop, List.length_cons]
            omega
          simp only [batchGo, hn, if_false]
          rw [ih f2 _ hd1 hd2 n]

theorem batch_generator_nil (n : Nat) : batch_generator ([] : List α) n = [] := by
  simp [batch_generator, batchGo]

theorem batch_generator_cons {l : List α} {n : Nat} (hn : 0 < n) (hl : l ≠ []) :
    batch_generator l n = l.take n :: batch_generator (l.drop n) n := by
  unfold batch_generator
  cases l with
  | nil => exact absurd rfl hl
  | cons a rest =>
    have hn0 : n ≠ 0 := Nat.pos_iff_ne_zero.mp hn
    simp only [List.length_cons, batchGo, hn0, if_false]
    refine congrArg ((a :: rest).take n :: ·) ?_
    apply batchGo_fuel_irrelevant
    · simp only [List.length_drop, List.length_cons]
      omega
    · exact Nat.le_refl _

theorem batch_generator_flatten {n : Nat} (hn : 0 < n) (l : List α) :
    (batch_generator l n).flatten = l := by
  cases l with
  | nil => simp [batch_generator_nil]
  | cons a rest =>
    rw [batch_generator_cons hn (by simp)]
    rw [List.flatten_cons, batch_generator_flatten hn ((a :: rest).drop n)]
    exact List.take_append_drop n (a :: rest)
termination_by l.length
decreasing_by
  simp only [List.length_drop, List.length_cons]
  omega

theorem batch_generator_length {n : Nat} (hn : 0 < n) (l : List α) :
    (batch_generator l n).length = (l.length + n - 1) / n := by
  cases l with
  | nil =>
    rw [batch_generator_nil]
    simp only [List.length_nil]
    have h2 : (0 + n - 1) / n = 0 := Nat.div_eq_of_lt (by omega)
    omega
  | cons a rest =>
    rw [batch_generator_cons hn (by simp)]
    rw [List.length_cons, batch_generator_length hn ((a :: rest).drop n)]
    simp only [List.length_drop, List.length_cons]
    rcases Nat.lt_or_ge (rest.length + 1) n with hcase | hcase
    · have h1 : rest.length + 1 - n = 0 := by omega
      rw [h1]
      have h2 : (0 + n - 1) / n = 0 := Nat.div_eq_of_lt (by omega)
      have h3 : (rest.length + 1 + n - 1) / n = 1 := by
        apply Nat.div_eq_of_lt_le
        · omega
        · omega
      omega
    · have h4 : rest.length + 1 + n - 1 = (rest.length + 1 - n + n - 1) + n := by omega
      rw [h4, Nat.add_div_right _ hn]
termination_by l.length
decreasing_by
  simp only [List.length_drop, List.length_cons]
  omega

theorem batch_generator_dropLast_length {n : Nat} (hn : 0 < n) (l : List α) :
    ∀ c ∈ (batch_generator l n).dropLast, c.length = n := by
  cases l with
  | nil =>
    rw [batch_generator_nil]
    intro c hc
    simp at hc
  | cons a rest =>
    rw [batch_generator_cons hn (by simp)]
    intro c hc
    cases hb : batch_generator ((a :: rest).drop n) n with
    | nil =>
      rw [hb] at hc
      simp at hc
    | cons b bs =>
      rw [hb, List.dropLast_cons₂] at hc
      rcases List.mem_cons.mp hc with hc1 | hc2
      · subst hc1
        have hne : (a :: rest).drop n ≠ [] := by
          intro hcontra
          rw [hcontra, batch_generator_nil] at hb
          exact List.noConfusion hb
        have hlong : n < (a :: rest).length := by
          by_contra hle
          push_neg at hle
          exact hne (List.drop_eq_nil_of_le hle)
        simp only [List.length_take]
        omega
      · have := batch_generator_dropLast_length hn ((a :: rest).drop n) c
        rw [hb] at this
        exact this hc2
termination_by l.length
decreasing_by
  simp only [List.length_drop, List.length_cons]
  omega

theorem batch_generator_getLast {n : Nat} (hn : 0 < n) (l : List α) :
    ∀ c, (batch_generator l n).getLast? = some c →
      c.length = l.length - ((batch_generator l n).length - 1) * n := by
  cases l with
  | nil =>
    rw [batch_generator_nil]
    intro c hc
    exact Option.noConfusion hc
  | cons a rest =>
    intro c hc
    rw [batch_generator_cons hn (by simp)] at hc ⊢
    cases hb : batch_generator ((a :: rest).drop n) n with
    | nil =>
      rw [hb] at hc
      simp only [List.getLast?_singleton, Option.some.injEq] at hc
      subst hc
      have hdrop : (a :: rest).drop n = [] := by
        by_contra hne
        rw [batch_generator_cons hn hne] at hb
        exact List.noConfusion hb
      have hshort : (a :: rest).length ≤ n := by
        by_contra hgt
        push_neg at hgt
        have hpos : (a :: rest).drop n ≠ [] := by
          apply List.ne_nil_of_length_pos
          simp only [List.length_drop]
          omega
        exact hpos hdrop
      simp only [List.length_cons] at hshort
      simp only [List.length_take, List.length_cons, List.length_nil]
      omega
    | cons b bs =>
      rw [hb, List.getLast?_cons_cons] at hc
      have hrec := batch_generator_getLast hn ((a :: rest).drop n) c
      rw [hb] at hrec
      have hlen := hrec hc
      simp only [List.length_drop, List.length_cons] at hlen ⊢
      rw [hlen]
      have h7 : bs.length + 1 + 1 - 1 = bs.length + 1 := by omega
      have h8 : bs.length + 1 - 1 = bs.length := by omega
      rw [h7, h8, Nat.succ_mul]
      generalize bs.length * n = m
      omega
termination_by l.length
decreasing_by
  simp only [List.length_drop, List.length_cons]
  omega

/-! Error taxonomy and the FileData model. -/

/-- The error kinds raised by the connectors: the typed kinds of
unstructured_ingest.error (connection errors, write error) together with the
plain Python exception kinds appearing in the connector sources
(FileNotFoundError, ValueError, and a bare re-raise of a client-library
exception). -/
inductive IngestError where
  | sourceConnectionError (msg : String)
  | destinationConnectionError (msg : String)
  | writeError (msg : String)
  | fileNotFoundError (msg : String)
  | valueError (msg : String)
  | pyException (msg : String)
deriving Repr, DecidableEq

/-- Whether an error is the typed source connection error. -/
def IngestError.isSourceConnectionError : IngestError → Bool
  | .sourceConnectionError _ => true
  | _ => false

/-- Whether an error is one of the typed error kinds of the spec's taxonomy
(connection error, write error, item-not-found, configuration error); the
item-not-found condition is surfaced as FileNotFoundError in the source. -/
def IngestError.isTyped : IngestError → Bool
  | .sourceConnectionError _ => true
  | .destinationConnectionError _ => true
  | .writeError _ => true
  | .fileNotFoundError _ => true
  | _ => false

/-- Message text of an error, used when an error is converted to a string. -/
def IngestError.message : IngestError → String
  | .sourceConnectionError m => m
  | .destinationConnectionError m => m
  | .writeError m => m
  | .fileNotFoundError m => m
  | .valueError m => m
  | .pyException m => m

/-- Modelled from the spec: the source_identifiers field of FileData,
"{fullpath, filename, rel_path} - logical path fields" (the interfaces
module is imported by every connector but is not among the source files;
the fields are exactly the ones the connectors construct). -/
structure SourceIdentifiers where
  fullpath : String
  filename : String
  rel_path : String
deriving Repr, DecidableEq

/-- Modelled from the spec: FileDataSourceMetadata with "{date_created,
date_modified, date_processed, version, record_locator, url}"; the
record_locator is an opaque map whose values may be absent (the MongoDB
connector stores its possibly-unset database and collection names there). -/
structure FileDataSourceMetadata where
  date_created : Option String := none
  date_modified : Option String := none
  date_processed : Option String := none
  version : Option String := none
  record_locator : List (String × Option String) := []
  url : Option String := none
deriving Repr, DecidableEq

/-- Modelled from the spec: FileData, "the canonical unit of work - identity,
provenance, and metadata for one source document", with local_download_path
"set by the Downloader once content lands locally; absent beforehand". -/
structure FileData where
  identifier : String
  connector_type : String
  source_identifiers : SourceIdentifiers
  metadata : FileDataSourceMetadata
  additional_metadata : List (String × String) := []
  local_download_path : Option String := none
deriving Repr, DecidableEq

/-- A download response wrapping the file data produced by a Downloader run
together with the path of the downloaded file; parametric in the file-data
type because the Confluence connector builds its FileData with a different
shape (a plain metadata dict and a source_url field). -/
structure DownloadResponseOf (F : Type) where
  file_data : F
  path : String
deriving Repr, DecidableEq

/-- Modelled from the spec: get_download_path derives the local path of one
document "under a caller-provided download root, at a path derived
deterministically from source_identifiers"; the root is optional and the
result is None when no root is configured. -/
def get_download_path (download_dir : Option String) (fd : FileData) : Option String :=
  download_dir.map (fun dir => dir ++ "/" ++ fd.source_identifiers.rel_path)

/-- Modelled from the spec: generate_download_response wraps "the same
FileData with local_download_path set" pointing at the downloaded file. -/
def generate_download_response (fd : FileData) (download_path : String) :
    DownloadResponseOf FileData :=
  { file_data := { fd with local_download_path := some download_path },
    path := download_path }

/-! The Azure Cognitive Search upload stager
(AzureCognitiveSearchUploadStager in azure_cognitive_search.py). -/

/-- The transform applied to the metadata.links list:
"[json.dumps(link) for link in links]". -/
def dumpLinks : JValue → JValue
  | .arr links => .arr (links.map (fun link => .str (jsonDumps link)))
  | v => v

/-- The timestamp canonicalization "parse_datetime(v).strftime(...)"; the
parsing/formatting pipeline (connectors/utils.py, not among the source
files) is kept as an explicit pure function argument fmt, so every theorem
below holds for any choice of it. -/
def fmtDatetime (fmt : String → String) : JValue → JValue
  | .str s => .str (fmt s)
  | v => v

/-- AzureCognitiveSearchUploadStager.conform_dict: assigns a fresh uuid4 to
data["id"], then canonicalizes the metadata fields in the order of the
source (coordinates.points, data_source.version, data_source.record_locator,
data_source.permissions_data, links, last_modified, data_source.date_created,
data_source.date_modified, data_source.date_processed, regex_metadata,
page_number). The uuid drawn for this record arrives as the argument u. -/
def AzureCognitiveSearchUploadStager.conform_dict
    (fmt : String → String) (u : String) (data : JObj) : JObj :=
  let d0 := jSet data "id" (.str u)
  let d1 := conformAt3 "metadata" "coordinates" "points"
    (fun v => .str (jsonDumps v)) d0
  let d2 := conformAt3 "metadata" "data_source" "version"
    (fun v => .str (pyStr v)) d1
  let d3 := conformAt3 "metadata" "data_source" "record_locator"
    (fun v => .str (jsonDumps v)) d2
  let d4 := conformAt3 "metadata" "data_source" "permissions_data"
    (fun v => .str (jsonDumps v)) d3
  let d5 := conformAt2 "metadata" "links" dumpLinks d4
  let d6 := conformAt2 "metadata" "last_modified" (fmtDatetime fmt) d5
  let d7 := conformAt3 "metadata" "data_source" "date_created"
    (fmtDatetime fmt) d6
  let d8 := conformAt3 "metadata" "data_source" "date_modified"
    (fmtDatetime fmt) d7
  let d9 := conformAt3 "metadata" "data_source" "date_processed"
    (fmtDatetime fmt) d8
  let d10 := conformAt2 "metadata" "regex_metadata"
    (fun v => .str (jsonDumps v)) d9
  conformAt2 "metadata" "page_number" (fun v => .str (pyStr v)) d10

/-- The part of conform_dict that does not involve the uuid draw: the
metadata canonicalization chain applied to the record as-is. -/
def AzureCognitiveSearchUploadStager.conformTail
    (fmt : String → String) (data : JObj) : JObj :=
  let d1 := conformAt3 "metadata" "coordinates" "points"
    (fun v => .str (jsonDumps v)) data
  let d2 := conformAt3 "metadata" "data_source" "version"
    (fun v => .str (pyStr v)) d1
  let d3 := conformAt3 "metadata" "data_source" "record_locator"
    (fun v => .str (jsonDumps v)) d2
  let d4 := conformAt3 "metadata" "data_source" "permissions_data"
    (fun v => .str (jsonDumps v)) d3
  let d5 := conformAt2 "metadata" "links" dumpLinks d4
  let d6 := conformAt2 "metadata" "last_modified" (fmtDatetime fmt) d5
  let d7 := conformAt3 "metadata" "data_source" "date_created"
    (fmtDatetime fmt) d6
  let d8 := conformAt3 "metadata" "data_source" "date_modified"
    (fmtDatetime fmt) d7
  let d9 := conformAt3 "metadata" "data_source" "date_processed"
    (fmtDatetime fmt) d8
  let d10 := conformAt2 "metadata" "regex_metadata"
    (fun v => .str (jsonDumps v)) d9
  conformAt2 "metadata" "page_number" (fun v => .str (pyStr v)) d10

theorem conformAt2_jSet_id (k2 : String) (f : JValue → JValue)
    (d : JObj) (v : JValue) :
    conformAt2 "metadata" k2 f (jSet d "id" v)
      = jSet (conformAt2 "metadata" k2 f d) "id" v :=
  conformAt2_jSet k2 f d v (by decide)

theorem conformAt3_jSet_id (k2 k3 : String) (f : JValue → JValue)
    (d : JObj) (v : JValue) :
    conformAt3 "metadata" k2 k3 f (jSet d "id" v)
      = jSet (conformAt3 "metadata" k2 k3 f d) "id" v :=
  conformAt3_jSet k2 k3 f d v (by decide)

theorem conform_dict_eq_jSet_conformTail (fmt : String → String)
    (u : String) (data : JObj) :
    AzureCognitiveSearchUploadStager.conform_dict fmt u data
      = jSet (AzureCognitiveSearchUploadStager.conformTail fmt data) "id" (.str u) := by
  unfold AzureCognitiveSearchUploadStager.conform_dict
    AzureCognitiveSearchUploadStager.conformTail
  simp only [conformAt2_jSet_id, conformAt3_jSet_id]

theorem conform_dict_eraseId (fmt : String → String) (u : String) (data : JObj) :
    eraseKey "id" (AzureCognitiveSearchUploadStager.conform_dict fmt u data)
      = eraseKey "id" (AzureCognitiveSearchUploadStager.conformTail fmt data) := by
  rw [conform_dict_eq_jSet_conformTail, eraseKey_jSet_self]

/-- Result of one stager run: the path of the written output file and the
record contents written there. -/
structure StagerResult where
  output_path : String
  contents : List JObj
deriving Repr

/-- The list comprehension of AzureCognitiveSearchUploadStager.run:
"[self.conform_dict(data=element) for element in elements_contents]"; the
i-th call of uuid.uuid4() during the run draws uuids i. -/
def conformList (fmt : String → String) (uuids : Nat → String) :
    Nat → List JObj → List JObj
  | _, [] => []
  | i, e :: es =>
    AzureCognitiveSearchUploadStager.conform_dict fmt (uuids i) e
      :: conformList fmt uuids (i + 1) es

/-- AzureCognitiveSearchUploadStager.run: loads the elements file, conforms
every element, and dumps the conformed list to
output_dir/output_filename.json. -/
def AzureCognitiveSearchUploadStager.run (fmt : String → String)
    (uuids : Nat → String) (elements_contents : List JObj)
    (output_dir output_filename : String) : StagerResult :=
  { output_path := output_dir ++ "/" ++ output_filename ++ ".json",
    contents := conformList fmt uuids 0 elements_contents }

/-- MongoDBUploadStager.run: loads the elements file and dumps it unchanged
to output_dir/output_filename.json. -/
def MongoDBUploadStager.run (elements_contents : List JObj)
    (output_dir output_filename : String) : StagerResult :=
  { output_path := output_dir ++ "/" ++ output_filename ++ ".json",
    contents := elements_contents }

theorem conformList_eraseId (fmt : String → String) (u1 u2 : Nat → String) :
    ∀ (i j : Nat) (es : List JObj),
      (conformList fmt u1 i es).map (eraseKey "id")
        = (conformList fmt u2 j es).map (eraseKey "id") := by
  intro i j es
  induction es generalizing i j with
  | nil => rfl
  | cons e rest ih =>
    simp only [conformList, List.map_cons, conform_dict_eraseId]
    rw [ih (i + 1) (j + 1)]

theorem conformList_length (fmt : String → String) (uuids : Nat → String) :
    ∀ (i : Nat) (es : List JObj), (conformList fmt uuids i es).length = es.length := by
  intro i es
  induction es generalizing i with
  | nil => rfl
  | cons e rest ih => simp [conformList, ih]

/-! The uploaders (AzureCognitiveSearchUploader in azure_cognitive_search.py,
MongoDBUploader in mongodb.py). -/

/-- Modelled from the spec: SourceConnectionError.wrap
(unstructured_ingest.error, imported by the downloaders but not among the
source files) re-raises an error escaping the wrapped call as the "typed
source-connection error when the remote fetch fails (distinct from item not
found...)": an error already belonging to the typed taxonomy passes through,
anything else becomes a source connection error. -/
def sourceConnectionErrorWrap (r : Except IngestError α) : Except IngestError α :=
  match r with
  | .ok a => .ok a
  | .error e => if e.isTyped then .error e else .error (.sourceConnectionError e.message)

/-- Modelled from the spec: DestinationConnectionError.wrap, the destination
side of the same decorator: an error already belonging to the typed taxonomy
(in particular the write error) passes through, anything else becomes a
destination connection error. -/
def destinationConnectionErrorWrap (r : Except IngestError α) : Except IngestError α :=
  match r with
  | .ok a => .ok a
  | .error e => if e.isTyped then .error e else .error (.destinationConnectionError e.message)

/-- One per-document indexing result returned by the Azure search client's
upload_documents call; the fields are the ones the uploader reads. The
client library is an external collaborator, so the record is modelled with
exactly the attributes the source accesses. -/
structure IndexingResult where
  azure_cognitive_search_key : String
  status_code : Int
  error_message : String
  succeeded : Bool
deriving Repr, DecidableEq

/-- Behaviour of the remote Azure search index (an external collaborator):
a per-record verdict with the key, status code and message it reports for
each record, and a possible whole-request HTTP failure per batch. -/
structure AzureSearchIndex (R : Type) where
  accepts : R → Bool
  key : R → String
  status_code : R → Int
  error_message : R → String
  http_failure : List R → Option String

/-- The indexing result the remote index reports for one record. -/
def AzureSearchIndex.resultFor (idx : AzureSearchIndex R) (r : R) : IndexingResult :=
  { azure_cognitive_search_key := idx.key r,
    status_code := idx.status_code r,
    error_message := idx.error_message r,
    succeeded := idx.accepts r }

/-- The error-message fragment the uploader formats for one failed result:
"{key}: [{status_code}] {error_message}". -/
def IndexingResult.describe (res : IndexingResult) : String :=
  res.azure_cognitive_search_key ++ ": [" ++ toString res.status_code ++ "] "
    ++ res.error_message

/-- AzureCognitiveSearchUploader.write_dict: uploads one batch of records.
An HTTP failure of the whole request is re-raised as
WriteError("http error: ..."); otherwise the per-record results are split
into successes and failures and, when failures exist, a WriteError is raised
joining each failed record's key, status code and error message. The written
state of the remote index (the records it accepted so far) is threaded
explicitly; the surrounding DestinationConnectionError.wrap decorator is
applied to the outcome. -/
def AzureCognitiveSearchUploader.write_dict (idx : AzureSearchIndex R)
    (written : List R) (elements_dict : List R) :
    List R × Except IngestError Unit :=
  match idx.http_failure elements_dict with
  | some m => (written, destinationConnectionErrorWrap
      (.error (.writeError ("http error: " ++ m))))
  | none =>
    let results := elements_dict.map idx.resultFor
    let errors := results.filter (fun res => !res.succeeded)
    let written1 := written ++ elements_dict.filter idx.accepts
    if errors.isEmpty then (written1, destinationConnectionErrorWrap (.ok ()))
    else (written1, destinationConnectionErrorWrap (.error (.writeError
      (String.intercalate ", " (errors.map IndexingResult.describe)))))

/-- Outcome of one uploader run: the records held by the destination
afterwards, the batches passed to the successive write calls, and the final
result (ok, or the error that aborted the run). -/
structure UploaderRunResult (R : Type) where
  written : List R
  write_calls : List (List R)
  result : Except IngestError Unit
deriving Repr

/-- The batch loop of AzureCognitiveSearchUploader.run: issues one
write_dict call per chunk, stopping at the first raised error. -/
def AzureCognitiveSearchUploader.runGo (idx : AzureSearchIndex R) :
    List (List R) → List R → UploaderRunResult R
  | [], written => ⟨written, [], .ok ()⟩
  | chunk :: rest, written =>
    match AzureCognitiveSearchUploader.write_dict idx written chunk with
    | (written1, .ok _) =>
      let out := AzureCognitiveSearchUploader.runGo idx rest written1
      ⟨out.written, chunk :: out.write_calls, out.result⟩
    | (written1, .error e) => ⟨written1, [chunk], .error e⟩

/-- AzureCognitiveSearchUploader.run: loads the staged file and writes it to
the destination in batches of upload_config.batch_size via write_dict. -/
def AzureCognitiveSearchUploader.run (idx : AzureSearchIndex R)
    (elements_dict : List R) (batch_size : Nat) (written : List R) :
    UploaderRunResult R :=
  AzureCognitiveSearchUploader.runGo idx
    (batch_generator elements_dict batch_size) written

/-- The batch loop of MongoDBUploader.run: one insert_many call per chunk,
each appending its records to the destination collection. -/
def MongoDBUploader.runGo : List (List R) → List R → List R × List (List R)
  | [], coll => (coll, [])
  | chunk :: rest, coll =>
    let out := MongoDBUploader.runGo rest (coll ++ chunk)
    (out.1, chunk :: out.2)

/-- MongoDBUploader.run: loads the staged file and issues one insert_many
call per batch of upload_config.batch_size; returns the destination
collection afterwards and the issued insert calls. -/
def MongoDBUploader.run (elements_dict : List R) (batch_size : Nat)
    (coll : List R) : List R × List (List R) :=
  MongoDBUploader.runGo (batch_generator elements_dict batch_size) coll

theorem azure_runGo_all_ok (idx : AzureSearchIndex R) (bs : List (List R))
    (written : List R)
    (hok : ∀ c ∈ bs, ∀ r ∈ c, idx.accepts r = true)
    (hhttp : ∀ c ∈ bs, idx.http_failure c = none) :
    AzureCognitiveSearchUploader.runGo idx bs written
      = ⟨written ++ bs.flatten, bs, .ok ()⟩ := by
  induction bs generalizing written with
  | nil => simp [AzureCognitiveSearchUploader.runGo]
  | cons chunk rest ih =>
    have hchunk : ∀ r ∈ chunk, idx.accepts r = true :=
      hok chunk (List.mem_cons_self chunk rest)
    have hh : idx.http_failure chunk = none :=
      hhttp chunk (List.mem_cons_self chunk rest)
    have hfilter : chunk.filter idx.accepts = chunk := List.filter_eq_self.mpr hchunk
    have herr : (chunk.map idx.resultFor).filter (fun res => !res.succeeded) = [] := by
      apply List.filter_eq_nil_iff.mpr
      intro res hres
      obtain ⟨r, hr, hrfl⟩ := List.mem_map.mp hres
      subst hrfl
      simp [AzureSearchIndex.resultFor, hchunk r hr]
    rw [AzureCognitiveSearchUploader.runGo]
    rw [AzureCognitiveSearchUploader.write_dict, hh]
    simp only [herr, hfilter, List.isEmpty_nil, if_true, destinationConnectionErrorWrap]
    rw [ih (written ++ chunk)
      (fun c hc => hok c (List.mem_cons_of_mem _ hc))
      (fun c hc => hhttp c (List.mem_cons_of_mem _ hc))]
    simp [List.append_assoc]

theorem mongo_runGo_eq (bs : List (List R)) (coll : List R) :
    MongoDBUploader.runGo bs coll = (coll ++ bs.flatten, bs) := by
  induction bs generalizing coll with
  | nil => simp [MongoDBUploader.runGo]
  | cons chunk rest ih =>
    rw [MongoDBUploader.runGo, ih (coll ++ chunk)]
    simp [List.append_assoc]

theorem azure_runGo_fail (idx : AzureSearchIndex R)
    (pre post : List (List R)) (failBatch : List R) (written : List R)
    (hpre : ∀ c ∈ pre, ∀ r ∈ c, idx.accepts r = true)
    (hprehttp : ∀ c ∈ pre, idx.http_failure c = none)
    (hfailhttp : idx.http_failure failBatch = none)
    (hfail : ∃ r ∈ failBatch, idx.accepts r = false) :
    AzureCognitiveSearchUploader.runGo idx (pre ++ failBatch :: post) written
      = ⟨written ++ pre.flatten ++ failBatch.filter idx.accepts,
         pre ++ [failBatch],
         .error (.writeError (String.intercalate ", "
           (((failBatch.map idx.resultFor).filter
             (fun res => !res.succeeded)).map IndexingResult.describe)))⟩ := by
  induction pre generalizing written with
  | nil =>
    have herr : ((failBatch.map idx.resultFor).filter
        (fun res => !res.succeeded)).isEmpty = false := by
      obtain ⟨r, hr, hrej⟩ := hfail
      apply List.isEmpty_eq_false_iff_exists_mem.mpr
      refine ⟨idx.resultFor r, ?_⟩
      apply List.mem_filter.mpr
      refine ⟨List.mem_map.mpr ⟨r, hr, rfl⟩, ?_⟩
      simp [AzureSearchIndex.resultFor, hrej]
    simp only [List.nil_append]
    rw [AzureCognitiveSearchUploader.runGo]
    rw [AzureCognitiveSearchUploader.write_dict, hfailhttp]
    simp only [herr, Bool.false_eq_true, if_false, destinationConnectionErrorWrap,
      IngestError.isTyped, if_true]
    simp [List.flatten_nil]
  | cons chunk rest ih =>
    have hchunk : ∀ r ∈ chunk, idx.accepts r = true :=
      hpre chunk (List.mem_cons_self chunk rest)
    have hh : idx.http_failure chunk = none :=
      hprehttp chunk (List.mem_cons_self chunk rest)
    have hfilter : chunk.filter idx.accepts = chunk := List.filter_eq_self.mpr hchunk
    have herr : (chunk.map idx.resultFor).filter (fun res => !res.succeeded) = [] := by
      apply List.filter_eq_nil_iff.mpr
      intro res hres
      obtain ⟨r, hr, hrfl⟩ := List.mem_map.mp hres
      subst hrfl
      simp [AzureSearchIndex.resultFor, hchunk r hr]
    simp only [List.cons_append]
    rw [AzureCognitiveSearchUploader.runGo]
    rw [AzureCognitiveSearchUploader.write_dict, hh]
    simp only [herr, hfilter, List.isEmpty_nil, if_true, destinationConnectionErrorWrap]
    rw [ih (written ++ chunk)
      (fun c hc => hpre c (List.mem_cons_of_mem _ hc))
      (fun c hc => hprehttp c (List.mem_cons_of_mem _ hc))]
    simp [List.append_assoc]

/-! Claim theorems about the stagers and uploaders. -/

/-- C1: for every Uploader.run() call on a staged file with N element
records and configured batch size B > 0 (and a destination that accepts
them), the uploader issues exactly ceil(N/B) write calls, each carrying B
records except a final call carrying the remainder, in input order; this
holds for the Azure Cognitive Search uploader and the MongoDB uploader,
whose write calls are exactly the batches of batch_generator. -/
theorem claim_C1_uploader_batching {R : Type} (idx : AzureSearchIndex R)
    (elements_dict : List R) (batch_size : Nat) (written0 coll0 : List R)
    (hb : 0 < batch_size)
    (hok : ∀ r ∈ elements_dict, idx.accepts r = true)
    (hhttp : ∀ chunk : List R, idx.http_failure chunk = none) :
    (AzureCognitiveSearchUploader.run idx elements_dict batch_size written0).write_calls
      = batch_generator elements_dict batch_size
    ∧ (MongoDBUploader.run elements_dict batch_size coll0).2
      = batch_generator elements_dict batch_size
    ∧ (batch_generator elements_dict batch_size).length
      = (elements_dict.length + batch_size - 1) / batch_size
    ∧ (batch_generator elements_dict batch_size).flatten = elements_dict
    ∧ (∀ c ∈ (batch_generator elements_dict batch_size).dropLast,
        c.length = batch_size)
    ∧ (∀ c, (batch_generator elements_dict batch_size).getLast? = some c →
        c.length = elements_dict.length
          - ((batch_generator elements_dict batch_size).length - 1) * batch_size) := by
  have hbs : ∀ c ∈ batch_generator elements_dict batch_size,
      ∀ r ∈ c, idx.accepts r = true := by
    intro c hc r hr
    apply hok
    have hmem : r ∈ (batch_generator elements_dict batch_size).flatten :=
      List.mem_flatten.mpr ⟨c, hc, hr⟩
    rwa [batch_generator_flatten hb] at hmem
  refine ⟨?_, ?_, batch_generator_length hb elements_dict,
    batch_generator_flatten hb elements_dict,
    batch_generator_dropLast_length hb elements_dict,
    batch_generator_getLast hb elements_dict⟩
  · rw [AzureCognitiveSearchUploader.run,
      azure_runGo_all_ok idx _ written0 hbs (fun c _ => hhttp c)]
  · rw [MongoDBUploader.run, mongo_runGo_eq]

/-- A concrete destination index accepting every record, used to witness
claim C1 on the spec's 250-record scenario. -/
def acceptAllIndex : AzureSearchIndex Nat :=
  { accepts := fun _ => true,
    key := fun r => toString r,
    status_code := fun _ => 200,
    error_message := fun _ => "",
    http_failure := fun _ => none }

set_option maxRecDepth 10000 in
/-- Witness for C1: an upload of 250 records with batch size 100 issues
exactly the batch_generator batches, which are 3 write calls of 100, 100
and 50 records. -/
theorem claim_C1_witness :
    (AzureCognitiveSearchUploader.run acceptAllIndex (List.range 250) 100 []).write_calls
      = batch_generator (List.range 250) 100
    ∧ (batch_generator (List.range 250) 100).map List.length = [100, 100, 50] :=
  ⟨(claim_C1_uploader_batching acceptAllIndex (List.range 250) 100 [] []
      (by decide) (fun r _ => rfl) (fun _ => rfl)).1,
    by rfl⟩

/-- C2 counterexample: the Azure Cognitive Search stager draws a fresh
uuid4 for each record's id field, so two runs of the stager on the same
input elements file (here a single empty record) produce output files with
different record contents whenever the two runs draw different uuids. -/
theorem claim_C2_counterexample :
    (AzureCognitiveSearchUploadStager.run (fun s => s)
        (fun _ => "11111111-1111-4111-8111-111111111111") [[]] "out" "stage").contents
      ≠ (AzureCognitiveSearchUploadStager.run (fun s => s)
        (fun _ => "22222222-2222-4222-8222-222222222222") [[]] "out" "stage").contents := by
  intro h
  have h1 : (AzureCognitiveSearchUploadStager.run (fun s => s)
      (fun _ => "11111111-1111-4111-8111-111111111111") [[]] "out" "stage").contents
      = [[("id", JValue.str "11111111-1111-4111-8111-111111111111")]] := rfl
  have h2 : (AzureCognitiveSearchUploadStager.run (fun s => s)
      (fun _ => "22222222-2222-4222-8222-222222222222") [[]] "out" "stage").contents
      = [[("id", JValue.str "22222222-2222-4222-8222-222222222222")]] := rfl
  rw [h1, h2] at h
  simp at h

/-- C2 amended: the MongoDB stager copies the records unchanged (so two
runs coincide), and two runs of the Azure Cognitive Search stager on the
same input produce record contents that are identical after removing the id
field of each record - the id is freshly drawn from uuid4 on every run and
is the only run-dependent field; the output path is also identical. -/
theorem claim_C2_stager_deterministic_mod_id (fmt : String → String)
    (u1 u2 : Nat → String) (elements_contents : List JObj)
    (output_dir output_filename : String) :
    ((AzureCognitiveSearchUploadStager.run fmt u1 elements_contents
        output_dir output_filename).contents.map (eraseKey "id")
      = (AzureCognitiveSearchUploadStager.run fmt u2 elements_contents
        output_dir output_filename).contents.map (eraseKey "id"))
    ∧ (AzureCognitiveSearchUploadStager.run fmt u1 elements_contents
        output_dir output_filename).output_path
      = (AzureCognitiveSearchUploadStager.run fmt u2 elements_contents
        output_dir output_filename).output_path
    ∧ (MongoDBUploadStager.run elements_contents
        output_dir output_filename).contents = elements_contents :=
  ⟨conformList_eraseId fmt u1 u2 0 0 elements_contents, rfl, rfl⟩

/-- C5: for every UploadStager.run() call on a JSON array of records, the
output file holds exactly as many records as the input: the Azure stager
maps conform_dict over the records one-to-one and the MongoDB stager copies
them unchanged. -/
theorem claim_C5_stager_record_count (fmt : String → String)
    (uuids : Nat → String) (elements_contents : List JObj)
    (output_dir output_filename : String) :
    (AzureCognitiveSearchUploadStager.run fmt uuids elements_contents
        output_dir output_filename).contents.length = elements_contents.length
    ∧ (MongoDBUploadStager.run elements_contents
        output_dir output_filename).contents.length = elements_contents.length :=
  ⟨conformList_length fmt uuids 0 elements_contents, rfl⟩

/-- C6: when the destination rejects records of a batch, the Azure
uploader's run raises a typed write error whose message joins, for exactly
the rejected records of that batch, the record's key and the
destination-reported status code and error message; the batches written
before the failing batch (and the accepted records of the failing batch)
remain at the destination, and no later batch is attempted. -/
theorem claim_C6_write_error_detail {R : Type} (idx : AzureSearchIndex R)
    (elements_dict : List R) (batch_size : Nat) (written0 : List R)
    (pre post : List (List R)) (failBatch : List R)
    (hsplit : batch_generator elements_dict batch_size = pre ++ failBatch :: post)
    (hpre : ∀ c ∈ pre, ∀ r ∈ c, idx.accepts r = true)
    (hprehttp : ∀ c ∈ pre, idx.http_failure c = none)
    (hfailhttp : idx.http_failure failBatch = none)
    (hfail : ∃ r ∈ failBatch, idx.accepts r = false) :
    AzureCognitiveSearchUploader.run idx elements_dict batch_size written0
      = ⟨written0 ++ pre.flatten ++ failBatch.filter idx.accepts,
         pre ++ [failBatch],
         .error (.writeError (String.intercalate ", "
           (((failBatch.map idx.resultFor).filter (fun res => !res.succeeded)).map
             IndexingResult.describe)))⟩ := by
  rw [AzureCognitiveSearchUploader.run, hsplit]
  exact azure_runGo_fail idx pre post failBatch written0 hpre hprehttp hfailhttp hfail

/-- A concrete destination index rejecting exactly the record 3, used to
witness claim C6. -/
def rejectThreeIndex : AzureSearchIndex Nat :=
  { accepts := fun r => decide (r ≠ 3),
    key := fun r => toString r,
    status_code := fun _ => 400,
    error_message := fun _ => "rejected by index",
    http_failure := fun _ => none }

/-- Witness for C6: uploading [0..4] with batch size 2 against a
destination rejecting record 3 fails on the second batch, keeps the first
batch (and the accepted record of the second), and reports the rejected
record. -/
theorem claim_C6_witness :
    AzureCognitiveSearchUploader.run rejectThreeIndex [0, 1, 2, 3, 4] 2 []
      = ⟨[] ++ [[0, 1]].flatten ++ [2, 3].filter rejectThreeIndex.accepts,
         [[0, 1]] ++ [[2, 3]],
         .error (.writeError (String.intercalate ", "
           ((([2, 3].map rejectThreeIndex.resultFor).filter
             (fun res => !res.succeeded)).map IndexingResult.describe)))⟩ :=
  claim_C6_write_error_detail rejectThreeIndex [0, 1, 2, 3, 4] 2 []
    [[0, 1]] [[4]] [2, 3] (by rfl) (by decide) (by decide) rfl
    ⟨3, by decide, by decide⟩

/-! The MongoDB source connector (MongoDBIndexer, MongoDBDownloader in
mongodb.py). -/

/-- A BSON field value of a source document. Sub-documents are modelled one
level deep, which is the nesting the claims exercise. -/
inductive BsonValue where
  | str (s : String) : BsonValue
  | int (n : Int) : BsonValue
  | doc (fields : List (String × String)) : BsonValue
deriving Repr, DecidableEq

/-- A source document: an association list of named BSON values, holding its
_id among the fields like a MongoDB document does. -/
abbrev Document := List (String × BsonValue)

/-- The _id of a document, as the string the connector renders it to
(identifiers are modelled as string ids; the ObjectId branch of the source,
which additionally derives a creation date, is not taken for string ids). -/
def getId (d : Document) : Option String :=
  match d.lookup "_id" with
  | some (.str s) => some s
  | _ => none

/-- Modelled from the spec: flatten_dict (unstructured_ingest.utils.data_prep,
imported by the downloader but not among the source files) flattens a nested
mapping into a flat one, joining nested keys with an underscore and keeping
the leaf values in document order; the downloader then newline-joins the str()
of each value. -/
def flatten_dict : List (String × BsonValue) → List (String × String)
  | [] => []
  | (k, .str s) :: rest => (k, s) :: flatten_dict rest
  | (k, .int n) :: rest => (k, toString n) :: flatten_dict rest
  | (k, .doc sub) :: rest =>
    sub.map (fun kv => (k ++ "_" ++ kv.1, kv.2)) ++ flatten_dict rest

/-- collection.distinct("_id"): the distinct document ids of the collection
(in the model, in order of first appearance; the claims under proof depend
only on the resulting ids being the distinct ids of the documents). -/
def distinctIds (docs : List Document) : List String :=
  (docs.filterMap getId).dedup

/-- The FileData that MongoDBIndexer.run builds for one document id. -/
def MongoDBIndexer.fileDataFor (database collection : Option String)
    (now : String) (doc_id : String) : FileData :=
  { identifier := doc_id,
    connector_type := "mongodb",
    source_identifiers :=
      { fullpath := doc_id, filename := doc_id, rel_path := doc_id ++ ".txt" },
    metadata :=
      { date_created := none,
        date_processed := some now,
        record_locator :=
          [("database", database), ("collection", collection),
           ("document_id", some doc_id)] },
    additional_metadata := [] }

/-- MongoDBIndexer.run: fetches the distinct document ids, slices them into
batches of index_config.batch_size, and yields one FileData per id in order
(the nested loop over the slices traverses exactly the flattened slices).
The wall-clock reading used for metadata.date_processed arrives as now. -/
def MongoDBIndexer.run (database collection : Option String) (batch_size : Nat)
    (docs : List Document) (now : String) : List FileData :=
  let ids := distinctIds docs
  let id_batches := batch_generator ids batch_size
  id_batches.flatten.map (MongoDBIndexer.fileDataFor database collection now)

/-- MongoDBDownloader.run before the SourceConnectionError.wrap decorator:
fetches the document by its id (the remote find_one call arrives as fetch),
re-raises a fetch failure bare, raises FileNotFoundError when the document
is gone, removes the _id field, flattens the rest and newline-joins the
values, writes them to the download path, and returns a download response
wrapping the FileData with local_download_path set. -/
def MongoDBDownloader.runRaw (fetch : Except String (Option Document))
    (download_dir : Option String) (file_data : FileData) :
    Except IngestError (List (String × String) × DownloadResponseOf FileData) :=
  match fetch with
  | .error e => .error (.pyException e)
  | .ok none =>
    .error (.fileNotFoundError
      ("Document with ID " ++ file_data.identifier ++ " not found"))
  | .ok (some doc) =>
    let doc1 := doc.filter (fun kv => kv.1 ≠ "_id")
    let flattened_dict := flatten_dict doc1
    let concatenated_values :=
      String.intercalate "\n" (flattened_dict.map (fun kv => kv.2))
    match get_download_path download_dir file_data with
    | none => .error (.valueError "Download path could not be determined")
    | some download_path =>
      let fd1 := { file_data with local_download_path := some download_path }
      .ok ([(download_path, concatenated_values)],
        generate_download_response fd1 download_path)

/-- MongoDBDownloader.run: runRaw under the SourceConnectionError.wrap
decorator of the source. -/
def MongoDBDownloader.run (fetch : Except String (Option Document))
    (download_dir : Option String) (file_data : FileData) :
    Except IngestError (List (String × String) × DownloadResponseOf FileData) :=
  sourceConnectionErrorWrap (MongoDBDownloader.runRaw fetch download_dir file_data)

/-- MongoDBDownloader.run against a live collection: the find_one call
returns the first document whose _id equals the FileData's identifier. -/
def MongoDBDownloader.runOnCollection (docs : List Document)
    (download_dir : Option String) (file_data : FileData) :
    Except IngestError (List (String × String) × DownloadResponseOf FileData) :=
  MongoDBDownloader.run
    (.ok (docs.find? (fun d => getId d == some file_data.identifier)))
    download_dir file_data

/-! The Confluence source connector (ConfluenceDownloader in confluence.py).
Its FileData is built with the shape the confluence source actually uses: a
plain metadata dict and a source_url field. -/

/-- The fields of a Confluence page the downloader reads
(body.view.value, history.createdDate, version.when, version.number,
title). -/
structure ConfluencePage where
  body_view_value : String
  history_createdDate : String
  version_when : String
  version_number : Int
  title : String
deriving Repr, DecidableEq

/-- The FileData shape constructed by ConfluenceIndexer.run: identifier,
connector_type, a plain metadata dict and a source_url; local_download_path
is set by the download response. -/
structure ConfluenceFileData where
  identifier : String
  connector_type : String
  metadata : JObj
  source_url : String
  local_download_path : Option String := none
deriving Repr

/-- ConfluenceDownloader.run: fetches the page by the FileData's identifier
(the remote get_page_by_id call arrives as fetch); a fetch failure is
re-raised as a typed SourceConnectionError, a missing page raises
ValueError; on success the page body is written to download_dir/{id}.html,
the metadata dict is updated with the content-derived date_created,
date_modified, version and title, and the response wraps the FileData with
local_download_path set. -/
def ConfluenceDownloader.run (fetch : Except String (Option ConfluencePage))
    (download_dir : String) (file_data : ConfluenceFileData) :
    Except IngestError (List (String × String) × DownloadResponseOf ConfluenceFileData) :=
  let doc_id := file_data.identifier
  match fetch with
  | .error e =>
    .error (.sourceConnectionError
      ("Failed to retrieve page with ID " ++ doc_id ++ ": " ++ e))
  | .ok none =>
    .error (.valueError ("Page with ID " ++ doc_id ++ " does not exist."))
  | .ok (some page) =>
    let content := page.body_view_value
    let download_path := download_dir ++ "/" ++ doc_id ++ ".html"
    let md1 := jSet file_data.metadata "date_created" (.str page.history_createdDate)
    let md2 := jSet md1 "date_modified" (.str page.version_when)
    let md3 := jSet md2 "version" (.num page.version_number)
    let md4 := jSet md3 "title" (.str page.title)
    let fd1 := { file_data with
      metadata := md4, local_download_path := some download_path }
    .ok ([(download_path, content)], { file_data := fd1, path := download_path })

/-! The Discord source connector (DiscordIndexer, DiscordDownloader in
discord.py). -/

/-- DiscordIndexer.get_channel_file_data: builds the FileData of one channel
(channel metadata retrieval is a placeholder empty dict in the source). The
two wall-clock readings of the source (datetime.utcnow().isoformat() and
datetime.utcnow().timestamp()) arrive as now and nowTimestamp. -/
def DiscordIndexer.get_channel_file_data (channel_id : String)
    (now nowTimestamp : String) : Option FileData :=
  some
    { identifier := channel_id,
      connector_type := "discord",
      source_identifiers :=
        { fullpath := channel_id,
          filename := channel_id ++ ".txt",
          rel_path := channel_id },
      metadata :=
        { date_created := some now,
          date_modified := some now,
          record_locator := [("channel_id", some channel_id)],
          date_processed := some nowTimestamp },
      additional_metadata := [] }

/-- Model of the enumeration of a CPython set built from a list of strings:
within one process (one hash seed), a set holds each distinct element once;
the claims under proof depend only on the set's elements, modelled here in
order of first appearance. -/
def pySet (l : List String) : List String := l.dedup

/-- The loop of DiscordIndexer.run: iterates the channel set, skips already
processed channels, and yields the channel's FileData when one is built. -/
def DiscordIndexer.runGo (now nowTimestamp : String) :
    List String → List String → List FileData
  | [], _ => []
  | channel_id :: rest, processed =>
    if processed.contains channel_id then
      DiscordIndexer.runGo now nowTimestamp rest processed
    else
      match DiscordIndexer.get_channel_file_data channel_id now nowTimestamp with
      | some fd =>
        fd :: DiscordIndexer.runGo now nowTimestamp rest (channel_id :: processed)
      | none => DiscordIndexer.runGo now nowTimestamp rest (channel_id :: processed)

/-- DiscordIndexer.run: builds the set of configured channel ids and yields
one FileData per channel. -/
def DiscordIndexer.run (channels : Option (List String))
    (now nowTimestamp : String) : List FileData :=
  DiscordIndexer.runGo now nowTimestamp (pySet (channels.getD [])) []

/-- DiscordDownloader.download_channel: collects channel messages inside the
bot's on_ready event (an error there is logged and leaves the messages
collected so far), starts the bot (an error there is logged and ignored),
then - regardless of either failure - writes the collected messages to the
download path and returns a download response. The messages collected
before any failure arrive as collected; the two possible caught errors
arrive as fetchFailure and startFailure and are deliberately unused in the
result, mirroring the source's log-and-continue handling. -/
def DiscordDownloader.download_channel (collected : List String)
    (fetchFailure startFailure : Option String)
    (download_dir : String) (file_data : FileData) :
    Except IngestError (List (String × String) × DownloadResponseOf FileData) :=
  let download_path := download_dir ++ "/" ++ file_data.source_identifiers.rel_path
  let content := String.join (collected.map (fun message => message ++ "\n"))
  .ok ([(download_path, content)],
    generate_download_response file_data download_path)

/-- DiscordDownloader.run: dispatches on the record_locator; a FileData
whose record_locator has no channel_id raises ValueError, otherwise the
channel is downloaded. -/
def DiscordDownloader.run (collected : List String)
    (fetchFailure startFailure : Option String)
    (download_dir : String) (file_data : FileData) :
    Except IngestError (List (String × String) × DownloadResponseOf FileData) :=
  if (file_data.metadata.record_locator.map Prod.fst).contains "channel_id" then
    DiscordDownloader.download_channel collected fetchFailure startFailure
      download_dir file_data
  else
    .error (.valueError "Invalid record_locator in file_data")

/-! Supporting lemmas for the source-connector claims. -/

theorem filterMap_length_of_isSome {α β : Type} (f : α → Option β) :
    ∀ l : List α, (∀ x ∈ l, (f x).isSome) → (l.filterMap f).length = l.length := by
  intro l
  induction l with
  | nil => intro _; rfl
  | cons a rest ih =>
    intro h
    obtain ⟨b, hb⟩ := Option.isSome_iff_exists.mp (h a (List.mem_cons_self a rest))
    rw [List.filterMap_cons, hb]
    simp only [List.length_cons]
    rw [ih (fun x hx => h x (List.mem_cons_of_mem a hx))]

theorem find?_doc_of_nodup :
    ∀ docs : List Document, (∀ d2 ∈ docs, (getId d2).isSome) →
      (docs.filterMap getId).Nodup →
      ∀ d ∈ docs, ∀ i : String, getId d = some i →
        docs.find? (fun d2 => getId d2 == some i) = some d := by
  intro docs
  induction docs with
  | nil =>
    intro _ _ d hd
    simp at hd
  | cons d0 rest ih =>
    intro hall hnd d hd i hi
    obtain ⟨j, hj⟩ := Option.isSome_iff_exists.mp (hall d0 (List.mem_cons_self d0 rest))
    rw [List.filterMap_cons, hj] at hnd
    rcases List.mem_cons.mp hd with hd0 | hdrest
    · subst hd0
      apply List.find?_cons_of_pos
      simp [hi]
    · have hine : i ∈ rest.filterMap getId := List.mem_filterMap.mpr ⟨d, hdrest, hi⟩
      have hji : j ≠ i := by
        intro hcontra
        exact (List.nodup_cons.mp hnd).1 (hcontra ▸ hine)
      rw [List.find?_cons_of_neg]
      · exact ih (fun x hx => hall x (List.mem_cons_of_mem d0 hx))
          (List.nodup_cons.mp hnd).2 d hdrest i hi
      · simp [hj, hji]

/-- The channel ids that the Discord indexer loop emits: the input channels
not yet processed, each taken at its first occurrence. -/
def dedupAgainst : List String → List String → List String
  | _, [] => []
  | processed, c :: cs =>
    if processed.contains c then dedupAgainst processed cs
    else c :: dedupAgainst (c :: processed) cs

theorem discord_runGo_map_identifier (now ts : String) :
    ∀ (cs processed : List String),
      (DiscordIndexer.runGo now ts cs processed).map FileData.identifier
        = dedupAgainst processed cs := by
  intro cs
  induction cs with
  | nil => intro processed; rfl
  | cons c rest ih =>
    intro processed
    by_cases h : c ∈ processed
    · simp [DiscordIndexer.runGo, dedupAgainst, h, ih]
    · simp [DiscordIndexer.runGo, dedupAgainst, h,
        DiscordIndexer.get_channel_file_data, ih]

theorem dedupAgainst_of_nodup :
    ∀ (cs processed : List String), cs.Nodup →
      (∀ c ∈ cs, processed.contains c = false) →
      dedupAgainst processed cs = cs := by
  intro cs
  induction cs with
  | nil => intro processed _ _; rfl
  | cons c rest ih =>
    intro processed hnd hout
    have hc : processed.contains c = false := hout c (List.mem_cons_self c rest)
    rw [dedupAgainst, hc]
    simp only [Bool.false_eq_true, if_false]
    refine congrArg (c :: ·) ?_
    apply ih (c :: processed) (List.nodup_cons.mp hnd).2
    intro x hx
    have hxc : x ≠ c := by
      intro hcontra
      exact (List.nodup_cons.mp hnd).1 (hcontra ▸ hx)
    have h2 : x ∉ processed := by
      simpa using hout x (List.mem_cons_of_mem c hx)
    simp [hxc, h2]

theorem discord_run_map_identifier (channels : List String) (now ts : String) :
    (DiscordIndexer.run (some channels) now ts).map FileData.identifier
      = channels.dedup := by
  rw [DiscordIndexer.run, discord_runGo_map_identifier]
  apply dedupAgainst_of_nodup
  · exact List.nodup_dedup channels
  · intro c _
    rfl

theorem discord_runGo_record_locator (now ts : String) :
    ∀ (cs processed : List String),
      ∀ fd ∈ DiscordIndexer.runGo now ts cs processed,
        fd.metadata.record_locator = [("channel_id", some fd.identifier)] := by
  intro cs
  induction cs with
  | nil =>
    intro processed fd hfd
    simp [DiscordIndexer.runGo] at hfd
  | cons c rest ih =>
    intro processed fd hfd
    by_cases h : c ∈ processed
    · rw [DiscordIndexer.runGo] at hfd
      simp [h] at hfd
      exact ih processed fd hfd
    · rw [DiscordIndexer.runGo] at hfd
      simp [h, DiscordIndexer.get_channel_file_data] at hfd
      rcases hfd with hfd0 | hfdrest
      · subst hfd0
        rfl
      · exact ih (c :: processed) fd hfdrest

/-! Claim theorems about the source connectors. -/

/-- C3 counterexample: the Discord downloader's download_channel catches a
failed message fetch, logs it, and still returns a DownloadResponse (here
with an empty messages file) instead of raising a typed error. -/
def discordFdExample : FileData :=
  { identifier := "ch1",
    connector_type := "discord",
    source_identifiers := { fullpath := "ch1", filename := "ch1.txt", rel_path := "ch1" },
    metadata :=
      { date_created := some "t",
        date_modified := some "t",
        record_locator := [("channel_id", some "ch1")],
        date_processed := some "p" },
    additional_metadata := [] }

/-- C3 counterexample: a Discord channel download whose remote fetch failed
(no message was retrieved, the caught error is logged only) returns a
DownloadResponse wrapping the FileData, rather than raising any typed
error. -/
theorem claim_C3_counterexample :
    DiscordDownloader.download_channel []
        (some "Error fetching messages from channel ch1: forbidden") none
        "/downloads" discordFdExample
      = .ok ([("/downloads" ++ "/" ++ "ch1", "")],
        generate_download_response discordFdExample ("/downloads" ++ "/" ++ "ch1")) := rfl

/-- C3 amended: the MongoDB and Confluence downloaders re-raise caught fetch
errors as the typed source connection error, but
DiscordDownloader.download_channel swallows both the message-fetch error and
the bot-start error: whatever they are, it returns a DownloadResponse whose
file holds only the messages collected before the failure. -/
theorem claim_C3_amended_error_propagation (collected : List String)
    (fetchErr startErr : Option String) (dir : String) (fd : FileData)
    (e : String) (ddir : Option String) (cdir : String)
    (cfd : ConfluenceFileData) :
    DiscordDownloader.download_channel collected fetchErr startErr dir fd
      = .ok ([(dir ++ "/" ++ fd.source_identifiers.rel_path,
               String.join (collected.map (fun message => message ++ "\n")))],
             generate_download_response fd
               (dir ++ "/" ++ fd.source_identifiers.rel_path))
    ∧ MongoDBDownloader.run (.error e) ddir fd
      = .error (.sourceConnectionError e)
    ∧ ConfluenceDownloader.run (.error e) cdir cfd
      = .error (.sourceConnectionError
          ("Failed to retrieve page with ID " ++ cfd.identifier ++ ": " ++ e)) :=
  ⟨rfl, rfl, rfl⟩

/-- C4: a failed remote fetch raises the typed source connection error
(via SourceConnectionError.wrap for MongoDB, explicitly for Confluence),
while a document that no longer exists raises a distinct condition -
FileNotFoundError for MongoDB, ValueError for Confluence - neither of which
is a source connection error; both concern only the single fetched item. -/
theorem claim_C4_fetch_failure_vs_not_found (e : String) (ddir : Option String)
    (fd : FileData) (cdir : String) (cfd : ConfluenceFileData) :
    MongoDBDownloader.run (.error e) ddir fd
      = .error (.sourceConnectionError e)
    ∧ MongoDBDownloader.run (.ok none) ddir fd
      = .error (.fileNotFoundError
          ("Document with ID " ++ fd.identifier ++ " not found"))
    ∧ (∀ m : String, (IngestError.fileNotFoundError m).isSourceConnectionError = false)
    ∧ ConfluenceDownloader.run (.error e) cdir cfd
      = .error (.sourceConnectionError
          ("Failed to retrieve page with ID " ++ cfd.identifier ++ ": " ++ e))
    ∧ ConfluenceDownloader.run (.ok none) cdir cfd
      = .error (.valueError ("Page with ID " ++ cfd.identifier ++ " does not exist."))
    ∧ (∀ m : String, (IngestError.valueError m).isSourceConnectionError = false) :=
  ⟨rfl, rfl, fun _ => rfl, rfl, rfl, fun _ => rfl⟩

/-- C8: for a fixed remote state, the FileData identifier sequences of two
consecutive Indexer runs coincide (in set and order): the only run-dependent
inputs of MongoDBIndexer.run and DiscordIndexer.run are the wall-clock
readings, and the yielded identifiers do not depend on them. -/
theorem claim_C8_indexer_enumeration_deterministic (database collection : Option String)
    (batch_size : Nat) (docs : List Document) (t1 t2 : String)
    (channels : Option (List String)) (n1 p1 n2 p2 : String) :
    (MongoDBIndexer.run database collection batch_size docs t1).map FileData.identifier
      = (MongoDBIndexer.run database collection batch_size docs t2).map FileData.identifier
    ∧ (DiscordIndexer.run channels n1 p1).map FileData.identifier
      = (DiscordIndexer.run channels n2 p2).map FileData.identifier := by
  constructor
  · have hcomp : ∀ t : String,
        (FileData.identifier ∘ MongoDBIndexer.fileDataFor database collection t)
          = fun i => i := fun _ => rfl
    simp only [MongoDBIndexer.run, List.map_map, hcomp]
  · rw [DiscordIndexer.run, DiscordIndexer.run,
      discord_runGo_map_identifier, discord_runGo_map_identifier]

/-- C10: the Discord indexer yields at most one FileData per distinct
channel id (its identifier sequence is duplicate-free and a channel id
occurring in the configured list, with any multiplicity, is yielded exactly
once), and every yielded FileData carries identifier = channel id and
record_locator = [(channel_id, id)]. -/
theorem claim_C10_discord_channel_dedup (channels : List String) (now ts : String) :
    ((DiscordIndexer.run (some channels) now ts).map FileData.identifier).Nodup
    ∧ (DiscordIndexer.run (some channels) now ts).map FileData.identifier
        = channels.dedup
    ∧ (∀ fd ∈ DiscordIndexer.run (some channels) now ts,
        fd.metadata.record_locator = [("channel_id", some fd.identifier)])
    ∧ (∀ c ∈ channels,
        ((DiscordIndexer.run (some channels) now ts).map FileData.identifier).count c
          = 1) := by
  have hmap := discord_run_map_identifier channels now ts
  refine ⟨?_, hmap, ?_, ?_⟩
  · rw [hmap]
    exact List.nodup_dedup channels
  · intro fd hfd
    exact discord_runGo_record_locator now ts _ _ fd hfd
  · intro c hc
    rw [hmap, List.count_dedup]
    simp [hc]

/-- Witness for C10: with the channel id "alpha" configured twice, the run
yields it exactly once. -/
theorem claim_C10_witness :
    ((DiscordIndexer.run (some ["alpha", "beta", "alpha"]) "t0" "p0").map
        FileData.identifier).count "alpha" = 1 :=
  (claim_C10_discord_channel_dedup ["alpha", "beta", "alpha"] "t0" "p0").2.2.2
    "alpha" (by decide)

/-- The download path the MongoDB downloader derives for one FileData under
a download root. -/
def mongoDownloadPath (ddir : String) (fd : FileData) : String :=
  ddir ++ "/" ++ fd.source_identifiers.rel_path

/-- The file content the MongoDB downloader writes for one fetched document:
the newline-joined flattened field values with the _id field removed. -/
def mongoDownloadContent (doc : Document) : String :=
  String.intercalate "\n"
    ((flatten_dict (doc.filter (fun kv => kv.1 ≠ "_id"))).map (fun kv => kv.2))

/-- The download path the Confluence downloader derives for one page. -/
def confluenceDownloadPath (cdir : String) (cfd : ConfluenceFileData) : String :=
  cdir ++ "/" ++ cfd.identifier ++ ".html"

/-- The metadata dict after the Confluence downloader's update with the four
content-derived entries. -/
def confluenceUpdatedMetadata (page : ConfluencePage) (cfd : ConfluenceFileData) : JObj :=
  jSet (jSet (jSet (jSet cfd.metadata
    "date_created" (.str page.history_createdDate))
    "date_modified" (.str page.version_when))
    "version" (.num page.version_number))
    "title" (.str page.title)

/-- C9: a successful Downloader run returns a response wrapping the same
FileData: for MongoDB the wrapped FileData is the input with only
local_download_path set; for Confluence the identifier, connector type and
source_url are unchanged, local_download_path is set, and the metadata dict
changes only at the four content-derived keys written by the downloader. -/
theorem claim_C9_downloader_frame (doc : Document) (ddir : String) (fd : FileData)
    (page : ConfluencePage) (cdir : String) (cfd : ConfluenceFileData) :
    MongoDBDownloader.run (.ok (some doc)) (some ddir) fd
      = .ok ([(mongoDownloadPath ddir fd, mongoDownloadContent doc)],
             { file_data :=
                 { fd with local_download_path := some (mongoDownloadPath ddir fd) },
               path := mongoDownloadPath ddir fd })
    ∧ ConfluenceDownloader.run (.ok (some page)) cdir cfd
      = .ok ([(confluenceDownloadPath cdir cfd, page.body_view_value)],
             { file_data :=
                 { cfd with metadata := confluenceUpdatedMetadata page cfd,
                            local_download_path := some (confluenceDownloadPath cdir cfd) },
               path := confluenceDownloadPath cdir cfd })
    ∧ (∀ k : String, k ≠ "date_created" → k ≠ "date_modified" →
        k ≠ "version" → k ≠ "title" →
        jGet (confluenceUpdatedMetadata page cfd) k = jGet cfd.metadata k) := by
  refine ⟨rfl, rfl, ?_⟩
  intro k h1 h2 h3 h4
  rw [confluenceUpdatedMetadata, jGet_jSet_ne _ (Ne.symm h4),
    jGet_jSet_ne _ (Ne.symm h3), jGet_jSet_ne _ (Ne.symm h2),
    jGet_jSet_ne _ (Ne.symm h1)]

/-- A concrete Confluence page used to witness claim C9. -/
def confluencePageExample : ConfluencePage :=
  { body_view_value := "<p>hello</p>",
    history_createdDate := "2020-01-01T00:00:00Z",
    version_when := "2020-02-02T00:00:00Z",
    version_number := 3,
    title := "Hello page" }

/-- A concrete Confluence FileData used to witness claim C9. -/
def confluenceFdExample : ConfluenceFileData :=
  { identifier := "123",
    connector_type := "confluence",
    metadata := [("space_id", .str "SP"), ("document_id", .str "123")],
    source_url := "https://conf.example/pages/123" }

/-- A concrete MongoDB document used to witness claims C9 and C7. -/
def mongoDoc1Example : Document :=
  [("_id", .str "a1"), ("title", .str "T1"), ("meta", .doc [("lang", "en")])]

/-- Witness for C9: on the example page, the downloader's metadata update
leaves the pre-existing space_id entry untouched. -/
theorem claim_C9_witness :
    jGet (confluenceUpdatedMetadata confluencePageExample confluenceFdExample)
        "space_id"
      = jGet confluenceFdExample.metadata "space_id" :=
  (claim_C9_downloader_frame mongoDoc1Example "/downloads"
      (MongoDBIndexer.fileDataFor (some "db") (some "coll") "t0" "a1")
      confluencePageExample "/downloads" confluenceFdExample).2.2
    "space_id" (by decide) (by decide) (by decide) (by decide)

/-- C7: for a MongoDB-style collection of 3 documents (each with a distinct
string id), the indexer yields exactly 3 FileData whose identifiers are the
documents' ids, and running the downloader against the same collection on
the FileData of any document writes a local file whose content is the
newline-joined flattened field values of that document with the _id field
excluded, returning a response whose FileData has local_download_path set
to that file. -/
theorem claim_C7_mongodb_scenario (database collection : Option String)
    (batch_size : Nat) (now dir : String) (docs : List Document)
    (hb : 0 < batch_size)
    (hall : ∀ d ∈ docs, (getId d).isSome)
    (hnd : (docs.filterMap getId).Nodup)
    (h3 : docs.length = 3) :
    (MongoDBIndexer.run database collection batch_size docs now).length = 3
    ∧ (MongoDBIndexer.run database collection batch_size docs now).map
        FileData.identifier = docs.filterMap getId
    ∧ ∀ d ∈ docs, ∀ i : String, getId d = some i →
        MongoDBDownloader.runOnCollection docs (some dir)
            (MongoDBIndexer.fileDataFor database collection now i)
          = .ok ([(mongoDownloadPath dir
                    (MongoDBIndexer.fileDataFor database collection now i),
                  mongoDownloadContent d)],
                 { file_data :=
                     { MongoDBIndexer.fileDataFor database collection now i with
                       local_download_path := some (mongoDownloadPath dir
                         (MongoDBIndexer.fileDataFor database collection now i)) },
                   path := mongoDownloadPath dir
                     (MongoDBIndexer.fileDataFor database collection now i) }) := by
  have hids : distinctIds docs = docs.filterMap getId := by
    rw [distinctIds, List.dedup_eq_self.mpr hnd]
  have hcomp :
      (FileData.identifier ∘ MongoDBIndexer.fileDataFor database collection now)
        = fun i => i := rfl
  have hmap : (MongoDBIndexer.run database collection batch_size docs now).map
      FileData.identifier = docs.filterMap getId := by
    simp only [MongoDBIndexer.run, List.map_map, hcomp]
    rw [batch_generator_flatten hb, hids]
    exact List.map_id _
  refine ⟨?_, hmap, ?_⟩
  · have hlen := congrArg List.length hmap
    rw [List.length_map] at hlen
    rw [hlen, filterMap_length_of_isSome getId docs hall, h3]
  · intro d hd i hi
    have hfind : docs.find? (fun d2 => getId d2 ==
        some (MongoDBIndexer.fileDataFor database collection now i).identifier)
        = some d :=
      find?_doc_of_nodup docs hall hnd d hd i hi
    rw [MongoDBDownloader.runOnCollection, hfind]
    exact rfl

/-- The collection of three documents of the C7 scenario. -/
def mongoDocsExample : List Document :=
  [mongoDoc1Example,
   [("_id", .str "a2"), ("n", .int 7)],
   [("_id", .str "a3"), ("title", .str "T3")]]

/-- Witness for C7: on the concrete 3-document collection, the indexer
yields 3 FileData with identifiers a1, a2, a3, and the downloader run for
the first document writes its flattened field values (title T1 and the
nested meta.lang value en, the _id excluded) newline-joined. -/
theorem claim_C7_witness :
    (MongoDBIndexer.run (some "db") (some "coll") 100 mongoDocsExample "t0").length = 3
    ∧ (MongoDBIndexer.run (some "db") (some "coll") 100 mongoDocsExample "t0").map
        FileData.identifier = ["a1", "a2", "a3"]
    ∧ MongoDBDownloader.runOnCollection mongoDocsExample (some "/downloads")
        (MongoDBIndexer.fileDataFor (some "db") (some "coll") "t0" "a1")
      = .ok ([(mongoDownloadPath "/downloads"
                (MongoDBIndexer.fileDataFor (some "db") (some "coll") "t0" "a1"),
              mongoDownloadContent mongoDoc1Example)],
             { file_data :=
                 { MongoDBIndexer.fileDataFor (some "db") (some "coll") "t0" "a1" with
                   local_download_path := some (mongoDownloadPath "/downloads"
                     (MongoDBIndexer.fileDataFor (some "db") (some "coll") "t0" "a1")) },
               path := mongoDownloadPath "/downloads"
                 (MongoDBIndexer.fileDataFor (some "db") (some "coll") "t0" "a1") })
    ∧ mongoDownloadContent mongoDoc1Example = "T1\nen" := by
  have h := claim_C7_mongodb_scenario (some "db") (some "coll") 100 "t0" "/downloads"
    mongoDocsExample (by decide) (by decide) (by decide) (by decide)
  refine ⟨h.1, ?_, ?_, ?_⟩
  · rw [h.2.1]
    rfl
  · exact h.2.2 mongoDoc1Example (by decide) "a1" (by decide)
  · rfl
